import Mathlib

/-!
Shallow embedding of the minibooks double-entry bookkeeping engine.

The Rust source keeps all state in a SQLite database; here the database is a
`DB` record of row lists plus the per-table rowid counters, and every operation
is a pure function threading a `DB` in and out.  A SQL transaction that is
rolled back (or a validation bail before the transaction begins) leaves the
database untouched, so fallible operations return `Except Err α × DB` with the
input `DB` returned unchanged on error.  `i64` amounts and ids become `Int`;
SQL `TEXT` timestamps become opaque `String` fields drawn from the `DB` clock
fields.
-/

set_option linter.all false

deriving instance DecidableEq for Except

/-- Ledger account type (`src/ledger.rs`, `enum AccountType`). -/
inductive AccountType where
  | Cash
  | CurrentAsset
  | CurrentLiability
  | Equity
  | DirectExpense
  | IndirectExpense
  | Inventory
  | NonCurrentAsset
  | NonCurrentLiability
  | OtherIncome
  | Prepayments
  | Revenue
  | System
deriving DecidableEq, Repr

/-- `ParseAccountTypeError` (`src/ledger.rs`). -/
inductive ParseAccountTypeError where
  | mk
deriving DecidableEq, Repr

/-- `impl FromStr for AccountType` (`src/ledger.rs` lines 62-82): a sequential
match over the literal strings, in source order; note the source match has no
arm for `"System"`, so that string falls to the catch-all error arm. -/
def AccountType.from_str (s : String) : Except ParseAccountTypeError AccountType :=
  if s = "Cash" then .ok .Cash
  else if s = "CurrentAsset" then .ok .CurrentAsset
  else if s = "CurrentLiability" then .ok .CurrentLiability
  else if s = "DirectExpense" then .ok .DirectExpense
  else if s = "Equity" then .ok .Equity
  else if s = "IndirectExpense" then .ok .IndirectExpense
  else if s = "Inventory" then .ok .Inventory
  else if s = "NonCurrentAsset" then .ok .NonCurrentAsset
  else if s = "NonCurrentLiability" then .ok .NonCurrentLiability
  else if s = "OtherIncome" then .ok .OtherIncome
  else if s = "Prepayments" then .ok .Prepayments
  else if s = "Revenue" then .ok .Revenue
  else .error .mk

/-- The string the derived `Debug` impl prints for each variant; used by
`format!("nextAccount{account_type:?}")` in `db::account_new_tx`. -/
def AccountType.debugFmt : AccountType → String
  | .Cash => "Cash"
  | .CurrentAsset => "CurrentAsset"
  | .CurrentLiability => "CurrentLiability"
  | .Equity => "Equity"
  | .DirectExpense => "DirectExpense"
  | .IndirectExpense => "IndirectExpense"
  | .Inventory => "Inventory"
  | .NonCurrentAsset => "NonCurrentAsset"
  | .NonCurrentLiability => "NonCurrentLiability"
  | .OtherIncome => "OtherIncome"
  | .Prepayments => "Prepayments"
  | .Revenue => "Revenue"
  | .System => "System"

/-- Union of the error values the engine can surface.  The first two embed
`crate::error::Error` (`src/error.rs`); the last three embed the relevant
`sqlx` / panic outcomes of the storage layer:
`UniqueConstraintViolation` is the store rejecting a duplicate primary key,
`NullDecode` is sqlx failing to decode a NULL into a column annotated
non-null (what `account_detail_query` produces on a missing account, since
the aggregate query returns one all-NULL row), and `SettingUnwrapPanic`
stands for the `.unwrap()` in `db::account_new_tx` hitting a missing or NULL
settings row (a panic in the source; the transaction is dropped unfinished,
so the store is unchanged). -/
inductive Err where
  | InstructionError (msg : String)
  | JournalBalanceError
  | UniqueConstraintViolation
  | NullDecode
  | SettingUnwrapPanic
deriving DecidableEq, Repr

/-- A row of the `account` table. -/
structure AccountRow where
  id : Int
  name : String
  type : AccountType
deriving DecidableEq, Repr

/-- A row of the `batch` table (`INSERT INTO batch (date) VALUES (DATE('NOW'))`). -/
structure BatchRow where
  id : Int
  date : String
deriving DecidableEq, Repr

/-- A row of the `journal` table. -/
structure JournalRow where
  id : Int
  batch_id : Int
  unstructured_narrative : String
deriving DecidableEq, Repr

/-- A row of the `entry` table. -/
structure EntryRow where
  id : Int
  journal_id : Int
  account_id : Int
  amount : Int
deriving DecidableEq, Repr

/-- A row of the `settings` table: `name` is the key, `intValue` and
`strValue` are nullable columns. -/
structure SettingRow where
  name : String
  intValue : Option Int
  strValue : Option String
deriving DecidableEq, Repr

/-- The SQLite database: the five tables, the next rowid for each
autoincrementing table, and the server clock (`DATE('NOW')` and
`CURRENT_TIMESTAMP`) frozen as strings. -/
structure DB where
  accounts : List AccountRow
  batches : List BatchRow
  journals : List JournalRow
  entries : List EntryRow
  settings : List SettingRow
  next_batch_id : Int
  next_journal_id : Int
  next_entry_id : Int
  today : String
  now : String
deriving DecidableEq, Repr

/-- `settings::get_settings_int` (`src/settings.rs`): `SELECT intValue FROM
settings WHERE name=?` with `fetch_one`.  The outer `Option` models the
`fetch_one` result that the source immediately `.unwrap()`s (`none` = no row,
a panic in the source); the inner `Option` is the nullable `intValue`
column the function returns. -/
def Settings.get_settings_int (db : DB) (name : String) : Option (Option Int) :=
  (db.settings.find? (fun r => r.name = name)).map (fun r => r.intValue)

/-- `settings::set_settings_int` (`src/settings.rs`): `INSERT OR REPLACE INTO
settings (name, intValue) VALUES (?, ?)` — any existing row with that name is
replaced whole (its `strValue` becomes NULL). -/
def Settings.set_settings_int (db : DB) (name : String) (value : Int) : DB :=
  { db with settings :=
      db.settings.filter (fun r => r.name ≠ name) ++ [⟨name, some value, none⟩] }

/-- The result row of `db::account_detail_query`. -/
structure AccountDetailResult where
  account_name : String
  account_type : AccountType
  total_debits : Int
  total_credits : Int
  timestamp : String
deriving DecidableEq, Repr

/-- `db::account_detail_query` (`src/db.rs` lines 40-53).  The SQL left-joins
`account` (filtered to the requested id) with the per-entry
`max(amount,0)` / `min(amount,0)` projection of `entry`, and aggregates
`IFNULL(SUM(positive),0)` and `IFNULL(SUM(negative),0) * -1`.  When no
account row matches, the aggregate still yields one row whose `account.name`
is NULL, and the non-null decode annotation makes sqlx fail with a decode
error, embedded here as `Err.NullDecode`. -/
def Db.account_detail_query (db : DB) (account_id : Int) : Except Err AccountDetailResult :=
  match db.accounts.find? (fun a => a.id = account_id) with
  | none => .error .NullDecode
  | some a =>
    let amounts := (db.entries.filter (fun e => e.account_id = account_id)).map
      (fun e => e.amount)
    .ok { account_name := a.name
          account_type := a.type
          total_debits := (amounts.map (fun x => max x 0)).sum
          total_credits := -((amounts.map (fun x => min x 0)).sum)
          timestamp := db.now }

/-- The result row of `db::account_list_query`. -/
structure AccountSummaryResult where
  account_id : Int
  account_name : String
  account_type : AccountType
  balance : Int
  timestamp : String
deriving DecidableEq, Repr

/-- `db::account_list_query` (`src/db.rs` lines 72-84): every `account` row,
left-joined with the `SUM(amount) GROUP BY account_id` subquery over `entry`;
an account with no entries joins NULL and `IFNULL(b.balance, 0)` turns that
into 0. -/
def Db.account_list_query (db : DB) : List AccountSummaryResult :=
  db.accounts.map (fun a =>
    let es := db.entries.filter (fun e => e.account_id = a.id)
    let joined : Option Int :=
      if es.isEmpty then none else some ((es.map (fun e => e.amount)).sum)
    { account_id := a.id
      account_name := a.name
      account_type := a.type
      balance := joined.getD 0
      timestamp := db.now })

/-- `db::account_new_tx` (`src/db.rs` lines 86-107): one transaction that
resolves the id (caller-supplied, or the `nextAccount<Type>` setting), inserts
the account row, and when the id was auto-allocated stores the counter
incremented by one; commit returns the id.  A duplicate id violates the
primary-key constraint and aborts the transaction
(`Err.UniqueConstraintViolation`, database unchanged); a missing or NULL
setting is the source panicking on `.unwrap()` before any insert
(`Err.SettingUnwrapPanic`, database unchanged). -/
def Db.account_new_tx (db : DB) (account_id : Option Int) (account_name : String)
    (account_type : AccountType) : Except Err Int × DB :=
  let next_id_setting_name := "nextAccount" ++ account_type.debugFmt
  match (match account_id with
         | some id => some id
         | none =>
           match Settings.get_settings_int db next_id_setting_name with
           | some v => v
           | none => none) with
  | none => (.error .SettingUnwrapPanic, db)
  | some this_account_id =>
    if db.accounts.any (fun a => a.id = this_account_id) then
      (.error .UniqueConstraintViolation, db)
    else
      let db1 := { db with accounts :=
        db.accounts ++ [⟨this_account_id, account_name, account_type⟩] }
      let db2 :=
        if account_id.isNone then
          Settings.set_settings_int db1 next_id_setting_name (this_account_id + 1)
        else db1
      (.ok this_account_id, db2)

/-- `db::batch_new` (`src/db.rs` lines 109-115): insert one `batch` row dated
today and return `last_insert_rowid()`. -/
def Db.batch_new (db : DB) : Int × DB :=
  (db.next_batch_id,
   { db with batches := db.batches ++ [⟨db.next_batch_id, db.today⟩]
             next_batch_id := db.next_batch_id + 1 })

/-- `db::journal_new` (`src/db.rs` lines 117-125): insert one `journal` row and
return `last_insert_rowid()`. -/
def Db.journal_new (db : DB) (batch_id : Int) (unstructured_narrative : String) : Int × DB :=
  (db.next_journal_id,
   { db with
      journals := db.journals ++ [⟨db.next_journal_id, batch_id, unstructured_narrative⟩],
      next_journal_id := db.next_journal_id + 1 })

/-- `db::journal_entry_new` (`src/db.rs` lines 127-136): insert one `entry` row
and return `last_insert_rowid()`. -/
def Db.journal_entry_new (db : DB) (journal_id : Int) (account_id : Int) (amount : Int) :
    Int × DB :=
  (db.next_entry_id,
   { db with
      entries := db.entries ++ [⟨db.next_entry_id, journal_id, account_id, amount⟩],
      next_entry_id := db.next_entry_id + 1 })

/-- In-memory journal passed to the posting engine (`src/ledger.rs`,
`struct Journal`). -/
structure JournalEntry where
  account : Int
  amount : Int
deriving DecidableEq, Repr

structure Journal where
  unstructured_narrative : String
  entries : List JournalEntry
deriving DecidableEq, Repr

/-- The journal loop body of `db::batch_new_tx`: insert the journal row, then
its entry rows in order, and append the journal id to the accumulator. -/
def Db.post_journal (batch_id : Int) (st : DB × List Int) (j : Journal) : DB × List Int :=
  let (jid, db1) := Db.journal_new st.1 batch_id j.unstructured_narrative
  let db2 := j.entries.foldl
    (fun db e => (Db.journal_entry_new db jid e.account e.amount).2) db1
  (db2, st.2 ++ [jid])

/-- `db::batch_new_tx` (`src/db.rs` lines 138-151): one transaction inserting
the batch row, then per journal the journal row followed by its entry rows in
input order; commit returns the batch id and the journal ids in input order. -/
def Db.batch_new_tx (db : DB) (journals : List Journal) : (Int × List Int) × DB :=
  let (batch_id, db1) := Db.batch_new db
  let (db2, journal_ids) := journals.foldl (Db.post_journal batch_id) (db1, [])
  ((batch_id, journal_ids), db2)

/-- The per-journal validation of `ledger::batch_new` (`src/ledger.rs` lines
158-169), in source order: narrative over 140 bails `InstructionError`, then a
non-zero entry sum bails `JournalBalanceError`; `none` means the journal
passes. -/
def validate_journal (j : Journal) : Option Err :=
  if 140 < j.unstructured_narrative.length then
    some (.InstructionError "unstructured narrative over 140 chars")
  else if (j.entries.map (fun e => e.amount)).sum ≠ 0 then
    some .JournalBalanceError
  else none

/-- `ledger::batch_new` (`src/ledger.rs` lines 157-171): validate every journal
(bailing at the first failure, before any write), then run the insert
transaction. -/
def Ledger.batch_new (db : DB) (journals : List Journal) :
    Except Err (Int × List Int) × DB :=
  match journals.findSome? validate_journal with
  | some e => (.error e, db)
  | none =>
    let (r, db1) := Db.batch_new_tx db journals
    (.ok r, db1)

/-- `ledger::account_new` (`src/ledger.rs` lines 130-141): range-check a
caller-supplied id (note the source checks `id < 1 || id > 990` while its
error text says 1-999), length-check the name, then run the insert
transaction. -/
def Ledger.account_new (db : DB) (account_id : Option Int) (account_name : String)
    (account_type : AccountType) : Except Err Int × DB :=
  if (match account_id with
      | some id => id < 1 || 990 < id
      | none => false) then
    (.error (.InstructionError "account id out of range (1-999)"), db)
  else if 140 < account_name.length then
    (.error (.InstructionError "account name over 140 chars"), db)
  else
    Db.account_new_tx db account_id account_name account_type

/-- `ledger::AccountDetail`. -/
structure AccountDetail where
  account_id : Int
  account_name : String
  account_type : AccountType
  total_credits : Int
  total_debits : Int
  balance : Int
  timestamp : String
deriving DecidableEq, Repr

/-- `ledger::account_detail` (`src/ledger.rs` lines 117-128): run the detail
query and set `balance = total_debits - total_credits`. -/
def Ledger.account_detail (db : DB) (account_id : Int) : Except Err AccountDetail :=
  (Db.account_detail_query db account_id).map (fun result =>
    { account_id := account_id
      account_name := result.account_name
      account_type := result.account_type
      total_credits := result.total_credits
      total_debits := result.total_debits
      balance := result.total_debits - result.total_credits
      timestamp := result.timestamp })

/-- `ledger::AccountSummary`. -/
structure AccountSummary where
  account_id : Int
  account_name : String
  account_type : AccountType
  account_balance : Int
  timestamp : String
deriving DecidableEq, Repr

/-- `ledger::account_list` (`src/ledger.rs` lines 93-105): the list query,
repackaged row by row. -/
def Ledger.account_list (db : DB) : List AccountSummary :=
  (Db.account_list_query db).map (fun r =>
    { account_id := r.account_id
      account_name := r.account_name
      account_type := r.account_type
      account_balance := r.balance
      timestamp := r.timestamp })

/-- `services::sum_filter_accounts_list` (`src/services.rs` lines 135-144). -/
def sum_filter_accounts_list (accounts : List AccountSummary)
    (f : AccountSummary → Bool) : Int :=
  ((accounts.filter f).map (fun a => a.account_balance)).sum

/-- `services::filter_accounts_list` (`src/services.rs` lines 126-133). -/
def filter_accounts_list (accounts : List AccountSummary)
    (f : AccountSummary → Bool) : List AccountSummary :=
  accounts.filter f

/-- The balance-sheet numbers `services::report_balance_sheet`
(`src/services.rs` lines 146-192) inserts into the template context. -/
structure BalanceSheetReport where
  cash : List AccountSummary
  total_cash : Int
  current_assets : List AccountSummary
  total_current_assets : Int
  current_liabilities : List AccountSummary
  total_current_liabilities : Int
  net_assets : Int
deriving DecidableEq, Repr

/-- The pure projection computed by `services::report_balance_sheet`: each
section and subtotal exactly as built in the handler (the Cash type is in the
`total_current_assets` filter but not in the `current_assets` section list). -/
def report_balance_sheet (accounts : List AccountSummary) : BalanceSheetReport :=
  { cash := filter_accounts_list accounts (fun a => a.account_type = .Cash)
    total_cash := sum_filter_accounts_list accounts (fun a => a.account_type = .Cash)
    current_assets := filter_accounts_list accounts (fun a =>
      match a.account_type with
      | .CurrentAsset => true
      | .Inventory => true
      | .Prepayments => true
      | _ => false)
    total_current_assets := sum_filter_accounts_list accounts (fun a =>
      match a.account_type with
      | .Cash => true
      | .CurrentAsset => true
      | .Inventory => true
      | .Prepayments => true
      | _ => false)
    current_liabilities := filter_accounts_list accounts
      (fun a => a.account_type = .CurrentLiability)
    total_current_liabilities := sum_filter_accounts_list accounts
      (fun a => a.account_type = .CurrentLiability)
    net_assets :=
      sum_filter_accounts_list accounts (fun a =>
        match a.account_type with
        | .Cash => true
        | .CurrentAsset => true
        | .Inventory => true
        | .Prepayments => true
        | _ => false) +
      sum_filter_accounts_list accounts (fun a => a.account_type = .CurrentLiability) }

/-! ## Concrete databases used as witnesses -/

/-- An empty, freshly created database. -/
def db0 : DB := ⟨[], [], [], [], [], 1, 1, 1, "2026-01-01", "2026-01-01 00:00:00"⟩

/-- An empty database holding two Cash accounts A (id 1) and B (id 2). -/
def db2acc : DB := { db0 with accounts := [⟨1, "A", .Cash⟩, ⟨2, "B", .Cash⟩] }

/-- `db2acc` after posting one journal moving 500 from B to A. -/
def dbRT : DB := (Ledger.batch_new db2acc [⟨"", [⟨1, 500⟩, ⟨2, -500⟩]⟩]).2

/-- An empty database whose `nextAccountCash` sequence counter reads 5. -/
def dbS : DB := { db0 with settings := [⟨"nextAccountCash", some 5, none⟩] }

/-- A journal whose narrative is over 140 characters and whose entries sum to
5, so both validation rules reject it. -/
def cexJournal : Journal :=
  { unstructured_narrative := String.mk (List.replicate 141 'a')
    entries := [{ account := 1, amount := 5 }] }

/-! ## Helper lemmas -/

/-- If some element of the list maps to `some`, `findSome?` yields `some`. -/
theorem findSome?_ne_none_of_mem {α β : Type} (f : α → Option β) {l : List α} {a : α}
    (ha : a ∈ l) (hfa : f a ≠ none) : l.findSome? f ≠ none := by
  induction l with
  | nil => cases ha
  | cons x xs ih =>
    cases hx : f x with
    | some b => simp [List.findSome?_cons, hx]
    | none =>
      rcases List.mem_cons.mp ha with rfl | hmem
      · exact absurd hx hfa
      · simpa [List.findSome?_cons, hx] using ih hmem

/-- Summing the per-element `max · 0` projection equals summing the positive
elements. -/
theorem sum_map_max_zero (l : List Int) :
    (l.map (fun x => max x 0)).sum = (l.filter (fun x => 0 < x)).sum := by
  induction l with
  | nil => rfl
  | cons x xs ih =>
    by_cases hx : 0 < x
    · simp [List.filter_cons, hx, ih, max_eq_left hx.le]
    · simp [List.filter_cons, hx, ih, max_eq_right (le_of_not_lt hx)]

/-- Summing the per-element `min · 0` projection equals summing the negative
elements. -/
theorem sum_map_min_zero (l : List Int) :
    (l.map (fun x => min x 0)).sum = (l.filter (fun x => x < 0)).sum := by
  induction l with
  | nil => rfl
  | cons x xs ih =>
    by_cases hx : x < 0
    · simp [List.filter_cons, hx, ih, min_eq_left hx.le]
    · simp [List.filter_cons, hx, ih, min_eq_right (le_of_not_lt hx)]

/-- The sum of the negative elements of an integer list is nonpositive. -/
theorem sum_filter_neg_nonpos (l : List Int) : (l.filter (fun x => x < 0)).sum ≤ 0 := by
  induction l with
  | nil => simp
  | cons x xs ih =>
    rw [List.filter_cons]
    split
    · next h =>
      have hx : x < 0 := by simpa using h
      rw [List.sum_cons]
      omega
    · exact ih

/-! ## Claims -/

/-- C1: `postBatch` is all-or-nothing — if any journal in the input fails
validation (narrative over 140, or entries not summing to zero), the operation
returns an error and the stored state is completely unchanged (no Batch,
Journal or Entry row is written, so in particular no proper subset of the
input is ever committed). -/
theorem batch_new_all_or_nothing (db : DB) (js : List Journal) (j : Journal)
    (hj : j ∈ js)
    (hbad : 140 < j.unstructured_narrative.length ∨
      (j.entries.map (fun e => e.amount)).sum ≠ 0) :
    (∃ e, (Ledger.batch_new db js).1 = Except.error e) ∧
    (Ledger.batch_new db js).2 = db := by
  have hv : validate_journal j ≠ none := by
    unfold validate_journal
    rcases hbad with h | h
    · simp [h]
    · by_cases hn : 140 < j.unstructured_narrative.length <;> simp [hn, h]
  have h := findSome?_ne_none_of_mem validate_journal hj hv
  cases hfs : js.findSome? validate_journal with
  | none => exact absurd hfs h
  | some e =>
    exact ⟨⟨e, by simp [Ledger.batch_new, hfs]⟩, by simp [Ledger.batch_new, hfs]⟩

theorem batch_new_all_or_nothing_witness :
    (∃ e, (Ledger.batch_new db0 [⟨"", [⟨1, 5⟩]⟩]).1 = Except.error e) ∧
    (Ledger.batch_new db0 [⟨"", [⟨1, 5⟩]⟩]).2 = db0 :=
  batch_new_all_or_nothing db0 [⟨"", [⟨1, 5⟩]⟩] ⟨"", [⟨1, 5⟩]⟩
    (List.mem_singleton.mpr rfl) (Or.inr (by decide))

set_option maxRecDepth 8000 in
/-- C2 counterexample: a journal with a 141-character narrative and entries
summing to 5 makes `postBatch([J])` fail with the narrative
`InstructionError`, not with `JournalBalanceError`, although its entry sum is
non-zero — so the claim's clause "when the sum is non-zero it fails with a
BalanceError" is false as stated. -/
theorem batch_new_narrative_masks_balance_cex :
    ((cexJournal.entries.map (fun e => e.amount)).sum ≠ 0) ∧
    (Ledger.batch_new db0 [cexJournal]).1 =
      Except.error (Err.InstructionError "unstructured narrative over 140 chars") ∧
    (Ledger.batch_new db0 [cexJournal]).1 ≠ Except.error Err.JournalBalanceError := by
  refine ⟨by decide, by decide, by decide⟩

/-- C2 (amended): `postBatch([J])` succeeds iff `J`'s entry amounts sum to 0
and `J`'s narrative is at most 140 characters; when the narrative is over 140
it fails with a ValidationError (`InstructionError`, regardless of the sum),
and when the sum is non-zero and the narrative is within the limit it fails
with `JournalBalanceError`. -/
theorem batch_new_single_journal_spec (db : DB) (j : Journal) :
    ((∃ r db1, Ledger.batch_new db [j] = (Except.ok r, db1)) ↔
      ((j.entries.map (fun e => e.amount)).sum = 0 ∧
        j.unstructured_narrative.length ≤ 140)) ∧
    (140 < j.unstructured_narrative.length →
      (Ledger.batch_new db [j]).1 =
        Except.error (Err.InstructionError "unstructured narrative over 140 chars")) ∧
    ((j.entries.map (fun e => e.amount)).sum ≠ 0 →
      j.unstructured_narrative.length ≤ 140 →
      (Ledger.batch_new db [j]).1 = Except.error Err.JournalBalanceError) := by
  have hfs : [j].findSome? validate_journal = validate_journal j := by
    cases h : validate_journal j <;> simp [List.findSome?_cons, h]
  have herr : ∀ e : Err, validate_journal j = some e →
      Ledger.batch_new db [j] = (Except.error e, db) := by
    intro e he
    simp [Ledger.batch_new, hfs, he]
  by_cases hn : 140 < j.unstructured_narrative.length
  · have he := herr (Err.InstructionError "unstructured narrative over 140 chars")
      (by simp [validate_journal, hn])
    refine ⟨?_, fun _ => by rw [he], fun _ hlen => absurd hn (by omega)⟩
    rw [he]
    constructor
    · rintro ⟨r, db1, heq⟩
      simp at heq
    · rintro ⟨-, hlen⟩
      exact absurd hn (by omega)
  · by_cases hb : (j.entries.map (fun e => e.amount)).sum = 0
    · have hok : Ledger.batch_new db [j] =
          (Except.ok (Db.batch_new_tx db [j]).1, (Db.batch_new_tx db [j]).2) := by
        simp [Ledger.batch_new, hfs, validate_journal, hn, hb]
      refine ⟨?_, fun h => absurd h hn, fun h _ => absurd hb h⟩
      rw [hok]
      exact ⟨fun _ => ⟨hb, by omega⟩, fun _ => ⟨_, _, rfl⟩⟩
    · have he := herr Err.JournalBalanceError (by simp [validate_journal, hn, hb])
      refine ⟨?_, fun h => absurd h hn, fun _ _ => by rw [he]⟩
      rw [he]
      constructor
      · rintro ⟨r, db1, heq⟩
        simp at heq
      · rintro ⟨hsum, -⟩
        exact absurd hsum hb

theorem batch_new_single_journal_spec_witness :
    (Ledger.batch_new db0 [⟨"x", [⟨1, 7⟩]⟩]).1 = Except.error Err.JournalBalanceError :=
  (batch_new_single_journal_spec db0 ⟨"x", [⟨1, 7⟩]⟩).2.2 (by decide) (by decide)

/-- C3 (code bug): the source checks `id < 1 || id > 990`, so
`createAccount(999, "x", Cash)` is rejected with the range `InstructionError`
even though the error text itself says the range is 1-999 (and the spec's
boundary test expects 999 to pass); `createAccount(1000, ...)` is rejected as
the claim says, and 990 passes the range check. -/
theorem account_new_boundary_999_rejected :
    Ledger.account_new db0 (some 999) "x" AccountType.Cash =
      (Except.error (Err.InstructionError "account id out of range (1-999)"), db0) ∧
    Ledger.account_new db0 (some 1000) "x" AccountType.Cash =
      (Except.error (Err.InstructionError "account id out of range (1-999)"), db0) ∧
    (Ledger.account_new db0 (some 990) "x" AccountType.Cash).1 = Except.ok 990 := by
  refine ⟨by decide, by decide, by decide⟩

/-- C6 counterexample: the claim says every name of the closed enumeration
parses, but the source `FromStr` match has no `"System"` arm, so parsing
`"System"` fails instead of returning `AccountType.System`. -/
theorem from_str_system_cex :
    AccountType.from_str "System" = Except.error ParseAccountTypeError.mk ∧
    AccountType.from_str "System" ≠ Except.ok AccountType.System := by
  refine ⟨by decide, by decide⟩

/-- C6 (amended): parsing an account-type string succeeds exactly for the
twelve names with a match arm — Cash, CurrentAsset, CurrentLiability,
DirectExpense, Equity, IndirectExpense, Inventory, NonCurrentAsset,
NonCurrentLiability, OtherIncome, Prepayments, Revenue — returning the
corresponding variant, and fails with `ParseAccountTypeError` for every other
string (including `"System"`); there is no partial or fuzzy matching. -/
theorem from_str_closed_enumeration :
    (AccountType.from_str "Cash" = Except.ok AccountType.Cash ∧
     AccountType.from_str "CurrentAsset" = Except.ok AccountType.CurrentAsset ∧
     AccountType.from_str "CurrentLiability" = Except.ok AccountType.CurrentLiability ∧
     AccountType.from_str "DirectExpense" = Except.ok AccountType.DirectExpense ∧
     AccountType.from_str "Equity" = Except.ok AccountType.Equity ∧
     AccountType.from_str "IndirectExpense" = Except.ok AccountType.IndirectExpense ∧
     AccountType.from_str "Inventory" = Except.ok AccountType.Inventory ∧
     AccountType.from_str "NonCurrentAsset" = Except.ok AccountType.NonCurrentAsset ∧
     AccountType.from_str "NonCurrentLiability" = Except.ok AccountType.NonCurrentLiability ∧
     AccountType.from_str "OtherIncome" = Except.ok AccountType.OtherIncome ∧
     AccountType.from_str "Prepayments" = Except.ok AccountType.Prepayments ∧
     AccountType.from_str "Revenue" = Except.ok AccountType.Revenue) ∧
    (∀ s : String,
      s ∉ ["Cash", "CurrentAsset", "CurrentLiability", "DirectExpense", "Equity",
           "IndirectExpense", "Inventory", "NonCurrentAsset", "NonCurrentLiability",
           "OtherIncome", "Prepayments", "Revenue"] →
      AccountType.from_str s = Except.error ParseAccountTypeError.mk) := by
  constructor
  · refine ⟨by decide, by decide, by decide, by decide, by decide, by decide, by decide,
      by decide, by decide, by decide, by decide, by decide⟩
  · intro s hs
    simp only [List.mem_cons, List.not_mem_nil, or_false, not_or] at hs
    obtain ⟨h1, h2, h3, h4, h5, h6, h7, h8, h9, h10, h11, h12⟩ := hs
    simp [AccountType.from_str, h1, h2, h3, h4, h5, h6, h7, h8, h9, h10, h11, h12]

theorem from_str_closed_enumeration_witness :
    AccountType.from_str "Systems" = Except.error ParseAccountTypeError.mk :=
  from_str_closed_enumeration.2 "Systems" (by decide)

/-- C4: for every existing account, `accountDetail` returns `totalDebits` equal
to the sum of the positive entry amounts posted to the account, `totalCredits`
equal to the absolute value of the sum of the negative entry amounts, and
`balance = totalDebits - totalCredits`. -/
theorem account_detail_totals (db : DB) (account_id : Int) (a : AccountRow)
    (ha : db.accounts.find? (fun x => x.id = account_id) = some a) :
    ∃ d, Ledger.account_detail db account_id = Except.ok d ∧
      d.total_debits = (((db.entries.filter (fun e => e.account_id = account_id)).map
        (fun e => e.amount)).filter (fun x => 0 < x)).sum ∧
      d.total_credits = |(((db.entries.filter (fun e => e.account_id = account_id)).map
        (fun e => e.amount)).filter (fun x => x < 0)).sum| ∧
      d.balance = d.total_debits - d.total_credits := by
  have hq : Db.account_detail_query db account_id =
      Except.ok
        { account_name := a.name
          account_type := a.type
          total_debits := (((db.entries.filter (fun e => e.account_id = account_id)).map
            (fun e => e.amount)).map (fun x => max x 0)).sum
          total_credits := -((((db.entries.filter (fun e => e.account_id = account_id)).map
            (fun e => e.amount)).map (fun x => min x 0)).sum)
          timestamp := db.now } := by
    unfold Db.account_detail_query
    rw [ha]
  refine ⟨{ account_id := account_id
            account_name := a.name
            account_type := a.type
            total_credits := -((((db.entries.filter (fun e => e.account_id = account_id)).map
              (fun e => e.amount)).map (fun x => min x 0)).sum)
            total_debits := (((db.entries.filter (fun e => e.account_id = account_id)).map
              (fun e => e.amount)).map (fun x => max x 0)).sum
            balance := (((db.entries.filter (fun e => e.account_id = account_id)).map
              (fun e => e.amount)).map (fun x => max x 0)).sum -
              -((((db.entries.filter (fun e => e.account_id = account_id)).map
              (fun e => e.amount)).map (fun x => min x 0)).sum)
            timestamp := db.now }, ?_, ?_, ?_, rfl⟩
  · unfold Ledger.account_detail
    rw [hq]
    rfl
  · exact sum_map_max_zero _
  · show -((((db.entries.filter (fun e => e.account_id = account_id)).map
      (fun e => e.amount)).map (fun x => min x 0)).sum) = _
    rw [sum_map_min_zero, abs_of_nonpos (sum_filter_neg_nonpos _)]

theorem account_detail_totals_witness :
    (∃ d, Ledger.account_detail dbRT 1 = Except.ok d ∧ d.total_debits = 500 ∧
      d.total_credits = 0 ∧ d.balance = 500) ∧
    (∃ d, Ledger.account_detail dbRT 2 = Except.ok d ∧ d.total_debits = 0 ∧
      d.total_credits = 500 ∧ d.balance = -500) := by
  constructor
  · obtain ⟨d, hd, h1, h2, h3⟩ := account_detail_totals dbRT 1 ⟨1, "A", .Cash⟩ (by decide)
    exact ⟨d, hd, by rw [h1]; decide, by rw [h2]; decide, by rw [h3, h1, h2]; decide⟩
  · obtain ⟨d, hd, h1, h2, h3⟩ := account_detail_totals dbRT 2 ⟨2, "B", .Cash⟩ (by decide)
    exact ⟨d, hd, by rw [h1]; decide, by rw [h2]; decide, by rw [h3, h1, h2]; decide⟩

/-- Looking up a key right after `set_settings_int` wrote it yields the row
just written, whatever rows were there before. -/
theorem find?_set_settings_row (rows : List SettingRow) (n : String) (v : Int) :
    ((rows.filter (fun r => r.name ≠ n)) ++ [(⟨n, some v, none⟩ : SettingRow)]).find?
      (fun r => r.name = n) = some ⟨n, some v, none⟩ := by
  induction rows with
  | nil => simp [List.find?]
  | cons x xs ih =>
    rw [List.filter_cons]
    split
    · next h =>
      have hx : ¬(x.name = n) := by simpa using h
      rw [List.cons_append, List.find?_cons_of_neg _ (by simpa using hx)]
      exact ih
    · exact ih

/-- C5: `createAccount` with no id reads the `nextAccount<Type>` counter from
the Setting store, uses its value as the new account's id, inserts the account
row, and stores the counter incremented by one — one atomic state update whose
result returns the counter's prior value as the id, after which the counter
reads that id plus one. -/
theorem account_new_auto_id (db : DB) (name : String) (t : AccountType) (v : Int)
    (hset : Settings.get_settings_int db ("nextAccount" ++ t.debugFmt) = some (some v))
    (hname : name.length ≤ 140)
    (hfree : ∀ a ∈ db.accounts, a.id ≠ v) :
    ∃ db1, Ledger.account_new db none name t = (Except.ok v, db1) ∧
      db1.accounts = db.accounts ++ [⟨v, name, t⟩] ∧
      Settings.get_settings_int db1 ("nextAccount" ++ t.debugFmt) = some (some (v + 1)) := by
  have hany : db.accounts.any (fun a => a.id = v) = false := by
    rw [List.any_eq_false]
    intro a ha
    simpa using hfree a ha
  have hlen : ¬ 140 < name.length := by omega
  refine ⟨Settings.set_settings_int { db with accounts := db.accounts ++ [⟨v, name, t⟩] }
    ("nextAccount" ++ t.debugFmt) (v + 1), ?_, rfl, ?_⟩
  · simp [Ledger.account_new, Db.account_new_tx, hset, hany, hlen]
  · unfold Settings.get_settings_int Settings.set_settings_int
    rw [find?_set_settings_row]
    rfl

theorem account_new_auto_id_witness :
    ∃ db1, Ledger.account_new dbS none "x" AccountType.Cash = (Except.ok 5, db1) ∧
      db1.accounts = dbS.accounts ++ [⟨5, "x", AccountType.Cash⟩] ∧
      Settings.get_settings_int db1 ("nextAccount" ++ AccountType.Cash.debugFmt) =
        some (some 6) :=
  account_new_auto_id dbS "x" AccountType.Cash 5 (by decide) (by decide) (by decide)

/-- C7: when no account with the given id exists, `accountDetail` fails (in
the source the empty left join makes every selected column NULL and the
non-null decode of `account.name` errors) and in particular never returns a
zero-valued record for the missing account. -/
theorem account_detail_missing_account (db : DB) (account_id : Int)
    (h : ∀ a ∈ db.accounts, a.id ≠ account_id) :
    Ledger.account_detail db account_id = Except.error Err.NullDecode ∧
    ∀ d, Ledger.account_detail db account_id ≠ Except.ok d := by
  have hfind : db.accounts.find? (fun a => a.id = account_id) = none :=
    List.find?_eq_none.mpr (fun a ha => by simpa using h a ha)
  have h1 : Ledger.account_detail db account_id = Except.error Err.NullDecode := by
    simp [Ledger.account_detail, Db.account_detail_query, hfind, Except.map]
  exact ⟨h1, fun d hd => by rw [h1] at hd; cases hd⟩

theorem account_detail_missing_account_witness :
    Ledger.account_detail db0 7 = Except.error Err.NullDecode ∧
    ∀ d, Ledger.account_detail db0 7 ≠ Except.ok d :=
  account_detail_missing_account db0 7 (by decide)

/-- C8: the balance-sheet projection computes `totalCurrentAssets` as the sum
of the balances of all accounts of type Cash, CurrentAsset, Inventory or
Prepayments (Cash included in the total although it is also listed in its own
cash section), `totalCurrentLiabilities` as the sum of the balances of
CurrentLiability accounts, and `netAssets = totalCurrentAssets +
totalCurrentLiabilities`; on accounts Cash with balance 100 and
CurrentLiability with balance -50 it reports `totalCash=100`,
`totalCurrentAssets=100`, `totalCurrentLiabilities=-50`, `netAssets=50`. -/
theorem balance_sheet_totals (accounts : List AccountSummary) :
    (report_balance_sheet accounts).total_cash =
      ((accounts.filter (fun a => a.account_type = .Cash)).map
        (fun a => a.account_balance)).sum ∧
    (report_balance_sheet accounts).total_current_assets =
      ((accounts.filter (fun a => a.account_type = .Cash ∨ a.account_type = .CurrentAsset ∨
        a.account_type = .Inventory ∨ a.account_type = .Prepayments)).map
        (fun a => a.account_balance)).sum ∧
    (report_balance_sheet accounts).total_current_liabilities =
      ((accounts.filter (fun a => a.account_type = .CurrentLiability)).map
        (fun a => a.account_balance)).sum ∧
    (report_balance_sheet accounts).net_assets =
      (report_balance_sheet accounts).total_current_assets +
      (report_balance_sheet accounts).total_current_liabilities ∧
    report_balance_sheet
      [⟨1, "c", .Cash, 100, "ts"⟩, ⟨200, "l", .CurrentLiability, -50, "ts"⟩] =
      { cash := [⟨1, "c", .Cash, 100, "ts"⟩]
        total_cash := 100
        current_assets := []
        total_current_assets := 100
        current_liabilities := [⟨200, "l", .CurrentLiability, -50, "ts"⟩]
        total_current_liabilities := -50
        net_assets := 50 } := by
  have hfilter : accounts.filter (fun a =>
      match a.account_type with
      | .Cash => true
      | .CurrentAsset => true
      | .Inventory => true
      | .Prepayments => true
      | _ => false) =
    accounts.filter (fun a => a.account_type = .Cash ∨ a.account_type = .CurrentAsset ∨
      a.account_type = .Inventory ∨ a.account_type = .Prepayments) := by
    apply List.filter_congr
    intro a _
    cases h : a.account_type <;> simp [h]
  refine ⟨rfl, ?_, rfl, rfl, by decide⟩
  show ((accounts.filter (fun a =>
      match a.account_type with
      | .Cash => true
      | .CurrentAsset => true
      | .Inventory => true
      | .Prepayments => true
      | _ => false)).map (fun a => a.account_balance)).sum = _
  rw [hfilter]

/-- C9: `listAccounts` returns one summary per existing account (in table
order), each account's balance is the sum of all entry amounts posted against
it, and an account with no entries still appears with balance 0. -/
theorem account_list_balances (db : DB) :
    ((Ledger.account_list db).map (fun s => s.account_id) =
      db.accounts.map (fun a => a.id)) ∧
    (∀ s ∈ Ledger.account_list db, s.account_balance =
      ((db.entries.filter (fun e => e.account_id = s.account_id)).map
        (fun e => e.amount)).sum) ∧
    (∀ s ∈ Ledger.account_list db,
      (∀ e ∈ db.entries, e.account_id ≠ s.account_id) → s.account_balance = 0) := by
  have hbal : ∀ s ∈ Ledger.account_list db, s.account_balance =
      ((db.entries.filter (fun e => e.account_id = s.account_id)).map
        (fun e => e.amount)).sum := by
    intro s hs
    simp only [Ledger.account_list, List.mem_map] at hs
    obtain ⟨r, hr, rfl⟩ := hs
    simp only [Db.account_list_query, List.mem_map] at hr
    obtain ⟨a, ha, rfl⟩ := hr
    show (if (db.entries.filter (fun e => e.account_id = a.id)).isEmpty then none
      else some (((db.entries.filter (fun e => e.account_id = a.id)).map
        (fun e => e.amount)).sum)).getD 0 =
      ((db.entries.filter (fun e => e.account_id = a.id)).map (fun e => e.amount)).sum
    by_cases he : (db.entries.filter (fun e => e.account_id = a.id)).isEmpty
    · rw [if_pos he]
      rw [List.isEmpty_iff] at he
      rw [he]
      rfl
    · rw [if_neg he]
      rfl
  refine ⟨?_, hbal, ?_⟩
  · simp [Ledger.account_list, Db.account_list_query, List.map_map]
  · intro s hs hno
    rw [hbal s hs]
    have : db.entries.filter (fun e => e.account_id = s.account_id) = [] := by
      rw [List.filter_eq_nil_iff]
      intro e he
      simpa using hno e he
    rw [this]
    rfl

theorem account_list_balances_witness :
    ({ account_id := 1, account_name := "A", account_type := .Cash,
       account_balance := 0, timestamp := "2026-01-01 00:00:00" } :
      AccountSummary).account_balance = 0 :=
  (account_list_balances db2acc).2.2
    { account_id := 1, account_name := "A", account_type := .Cash,
      account_balance := 0, timestamp := "2026-01-01 00:00:00" }
    (by decide) (by decide)

/-- C10: a journal with zero entries passes validation (the empty sum is zero)
and `postBatch` commits it, writing a Journal row with no Entry rows and
returning its id; `postBatch` on an empty sequence of journals succeeds,
writing one Batch row with no journals and returning an empty list of journal
ids. -/
theorem batch_new_empty_journal_and_batch (db : DB) (n : String)
    (hn : n.length ≤ 140) :
    Ledger.batch_new db [] =
      (Except.ok (db.next_batch_id, []),
       { db with batches := db.batches ++ [⟨db.next_batch_id, db.today⟩],
                 next_batch_id := db.next_batch_id + 1 }) ∧
    ∃ db1, Ledger.batch_new db [{ unstructured_narrative := n, entries := [] }] =
      (Except.ok (db.next_batch_id, [db.next_journal_id]), db1) ∧
      db1.journals = db.journals ++
        [{ id := db.next_journal_id, batch_id := db.next_batch_id,
           unstructured_narrative := n }] ∧
      db1.entries = db.entries ∧
      db1.batches = db.batches ++ [⟨db.next_batch_id, db.today⟩] := by
  have hv : validate_journal ⟨n, []⟩ = none := by
    simp [validate_journal, Nat.not_lt.mpr hn]
  refine ⟨rfl, ?_⟩
  refine ⟨{ db with
      batches := db.batches ++ [⟨db.next_batch_id, db.today⟩]
      journals := db.journals ++ [⟨db.next_journal_id, db.next_batch_id, n⟩]
      next_batch_id := db.next_batch_id + 1
      next_journal_id := db.next_journal_id + 1 }, ?_, rfl, rfl, rfl⟩
  simp [Ledger.batch_new, List.findSome?_cons, hv, Db.batch_new_tx, Db.batch_new,
    Db.post_journal, Db.journal_new]

theorem batch_new_empty_journal_and_batch_witness :
    Ledger.batch_new db0 [] =
      (Except.ok (db0.next_batch_id, []),
       { db0 with batches := db0.batches ++ [⟨db0.next_batch_id, db0.today⟩],
                  next_batch_id := db0.next_batch_id + 1 }) ∧
    ∃ db1, Ledger.batch_new db0 [{ unstructured_narrative := "", entries := [] }] =
      (Except.ok (db0.next_batch_id, [db0.next_journal_id]), db1) ∧
      db1.journals = db0.journals ++
        [{ id := db0.next_journal_id, batch_id := db0.next_batch_id,
           unstructured_narrative := "" }] ∧
      db1.entries = db0.entries ∧
      db1.batches = db0.batches ++ [⟨db0.next_batch_id, db0.today⟩] :=
  batch_new_empty_journal_and_batch db0 "" (by decide)
